import Mathlib

namespace Incus

/-!
Verification of the incus image store, migration transport and cluster
admin surface, by a shallow embedding of the Go sources into Lean.

Each definition mirrors one Go function or data structure from the
repository (file and function named in the doc comment).  Theorems check
the natural-language specification's claims against these definitions.
-/

/-! ## Cluster admin surface: `validateNewConfig` (src/unnamed/part_000) -/

/-- Raft roles, from `db.RaftRole` (`voter`, `stand-by`, `spare`). -/
inductive RaftRole where
  | voter
  | standBy
  | spare
deriving DecidableEq, Repr

/-- A raft cluster member, from `db.RaftNode` as used by the admin
commands: id, name, address and role. -/
structure RaftNode where
  id : Nat
  name : String
  address : String
  role : RaftRole
deriving DecidableEq, Repr

/-- Per-member checks in the loop body of `validateNewConfig`:
id renumbering, changing a name that is non-empty on both sides, and
promoting a `spare` directly to `voter`. -/
def memberCheck (oldNode newNode : RaftNode) : Option String :=
  if oldNode.id ≠ newNode.id then
    some "Changing cluster member ID is not supported"
  else if oldNode.name ≠ "" ∧ newNode.name ≠ "" ∧ oldNode.name ≠ newNode.name then
    some "Changing cluster member name is not supported"
  else if oldNode.role = RaftRole.spare ∧ newNode.role = RaftRole.voter then
    some "A spare cluster member cannot become a voter"
  else
    none

/-- First error produced by the member loop of `validateNewConfig`,
walking the two (equal-length) lists in parallel. -/
def firstMemberError : List RaftNode → List RaftNode → Option String
  | _, [] => none
  | [], _ => none
  | o :: os, n :: ns =>
    match memberCheck o n with
    | some e => some e
    | none => firstMemberError os ns

/-- Number of voters in the new configuration, as counted by the loop in
`validateNewConfig`. -/
def countVoters (nodes : List RaftNode) : Nat :=
  (nodes.filter (fun n => n.role = RaftRole.voter)).length

/-- Model of `validateNewConfig(oldNodes, newNodes)` from src/unnamed/part_000:
returns `none` on success and `some errorMessage` on the first failed
check, in the same order as the Go code. -/
def validateNewConfig (oldNodes newNodes : List RaftNode) : Option String :=
  if oldNodes.length > newNodes.length then
    some "Removing cluster members is not supported"
  else if oldNodes.length < newNodes.length then
    some "Adding cluster members is not supported"
  else
    match firstMemberError oldNodes newNodes with
    | some e => some e
    | none =>
      if countVoters newNodes < 2 ∧ newNodes.length > 2 then
        some "Number of voters must be 2 or more"
      else if countVoters newNodes < 1 then
        some "At least one member must be a voter"
      else
        none

/-- The error condition claimed by the specification for C2, stated from
the spec's words (for comparison with the code): it reads "any member's
non-empty name is changed" as erroring whenever a member's old name is
non-empty and the new name differs from it. -/
def c2ClaimedError (oldNodes newNodes : List RaftNode) : Bool :=
  oldNodes.length ≠ newNodes.length ∨
    (List.zip oldNodes newNodes).any (fun p =>
      p.1.id ≠ p.2.id ∨
      (p.1.name ≠ "" ∧ p.1.name ≠ p.2.name) ∨
      (p.1.role = RaftRole.spare ∧ p.2.role = RaftRole.voter)) ∨
    countVoters newNodes = 0 ∨
    (newNodes.length > 2 ∧ countVoters newNodes < 2)

/-! ## Operation and image token secrets: `imageValidSecret`
(src/cmd/incusd/migrate_instance.go) -/

/-- Operation status machine, from `api.StatusCode` as used by the
operations subsystem (`pending → running → {success, failure, cancelled}`). -/
inductive OpStatus where
  | pending
  | running
  | cancelled
  | success
  | failure
deriving DecidableEq, Repr

/-- An operation as seen by `imageValidSecret`: the relevant fields of
`api.Operation` (id, status, the resources map and the metadata map;
token secrets are string-valued metadata entries). -/
structure Operation where
  id : String
  status : OpStatus
  resources : Option (List (String × List String))
  metadata : List (String × String)
deriving DecidableEq, Repr

/-- Go map lookup on a string-keyed association list. -/
def assocLookup {β : Type} : List (String × β) → String → Option β
  | [], _ => none
  | kv :: rest, k => if kv.1 == k then some kv.2 else assocLookup rest k

/-- Character-list prefix test (same result as Go's
`strings.HasPrefix`). -/
def strHasPrefix (pfx s : String) : Bool :=
  pfx.data.isPrefixOf s.data

/-- Model of `util.StringPrefixInSlice(pfx, ss)`: true when some element of `ss`
has `pfx` as a prefix. -/
def stringPrefixInSlice (pfx : String) (ss : List String) : Bool :=
  ss.any (fun s => strHasPrefix pfx s)

/-- The URL `api.NewURL().Path(version.APIVersion, "images", fingerprint).String()`,
the resource URL compared against the operation's `images` resources. -/
def imageURL (fingerprint : String) : String :=
  "/1.0/images/" ++ fingerprint

/-- The skip conditions of the loop body of `imageValidSecret`: an
operation matches when its resources map exists, its `images` entry
contains a URL prefixed by `images/<fp>`, and its metadata `secret` entry
equals the presented secret (exact string equality). -/
def opMatches (fingerprint secret : String) (op : Operation) : Bool :=
  match op.resources with
  | none => false
  | some res =>
    match assocLookup res "images" with
    | none => false
    | some opImages =>
      stringPrefixInSlice (imageURL fingerprint) opImages &&
        match assocLookup op.metadata "secret" with
        | none => false
        | some opSecret => opSecret == secret

/-- Model of `imageValidSecret(s, r, projectName, fingerprint, secret)` over the
list of in-flight `image-token` operations returned by
`operationsGetByType` (that helper is outside the provided sources;
following the spec, the list holds the project's in-flight operations).
Returns the first matching operation together with the in-flight list
after the call.  Modelled from the spec for the cancellation effect: a
matched operation that is still running is cancelled, which removes it
from the in-flight set (`operationCancel` is outside the provided
sources; the spec states the token is consumed and a second call returns
not-found).  A matched operation that is no longer running is returned
without being cancelled. -/
def imageValidSecret (fingerprint secret : String) :
    List Operation → Option Operation × List Operation
  | [] => (none, [])
  | op :: ops =>
    if opMatches fingerprint secret op then
      if op.status = OpStatus.running then
        (some op, ops)
      else
        (some op, op :: ops)
    else
      let r := imageValidSecret fingerprint secret ops
      (r.1, op :: r.2)

/-! ## Image maintenance: `pruneExpiredImages`
(src/cmd/incusd/migrate_instance.go) -/

/-- A cached image record as consumed by `pruneExpiredImages`
(`dbCluster.Image` fields used by the loop).  Times are in seconds;
`lastUseDate = none` models Go's zero `LastUseDate.Time`. -/
structure CachedImage where
  imageId : Nat
  project : String
  uploadDate : Int
  lastUseDate : Option Int
deriving DecidableEq, Repr

/-- The `projectsImageRemoteCacheExpiryDays` map built at the start of
`pruneExpiredImages`: the project's `images.remote_cache_expiry` when the
key is set (even to 0), otherwise the global
`ImagesRemoteCacheExpiryDays` default; a project absent from the map
yields Go's zero value 0. -/
def projectExpiryDays (projects : List (String × Option Int))
    (globalDays : Int) (p : String) : Int :=
  match assocLookup projects p with
  | none => 0
  | some none => globalDays
  | some (some e) => e

/-- The per-record test of the inner loop of `pruneExpiredImages`: skip
when the project expiry is non-positive; otherwise take `last-used-at`
when set else `upload-date`, add `expiryDays * 24h`, and skip when that
instant is after `now`.  `true` means the record is deleted. -/
def imageRecordExpired (now expiryDays : Int) (img : CachedImage) : Bool :=
  if expiryDays ≤ 0 then
    false
  else
    let timestamp :=
      match img.lastUseDate with
      | some t => t
      | none => img.uploadDate
    decide (timestamp + expiryDays * 86400 ≤ now)

/-- The inner loop of `pruneExpiredImages` over one fingerprint's
records: returns `dbImagesDeleted` and the surviving records. -/
def pruneFingerprint (now : Int) (expiryDaysOf : String → Int) :
    List CachedImage → Nat × List CachedImage
  | [] => (0, [])
  | img :: rest =>
    let r := pruneFingerprint now expiryDaysOf rest
    if imageRecordExpired now (expiryDaysOf img.project) img then
      (r.1 + 1, r.2)
    else
      (r.1, img :: r.2)

/-- Model of `pruneExpiredImages` over the grouped `allImages` map: for each
fingerprint, delete the expired per-project records, and remove the blob
files `images/<fp>`, `images/<fp>.rootfs` and the per-pool volumes only
when `dbImagesDeleted` reached the full record count.  Returns the
surviving records per fingerprint and the fingerprints whose files were
removed. -/
def pruneExpiredImages (now : Int) (projects : List (String × Option Int))
    (globalDays : Int) (allImages : List (String × List CachedImage)) :
    List (String × List CachedImage) × List String :=
  let expiryDaysOf := projectExpiryDays projects globalDays
  (allImages.map (fun g => (g.1, (pruneFingerprint now expiryDaysOf g.2).2)),
    (allImages.filter
      (fun g => (pruneFingerprint now expiryDaysOf g.2).1 = g.2.length)).map
      (fun g => g.1))

/-- The deletion condition as the claim states it: positive project
expiry and `(last-used-at OR upload-date) + days * 24h` not after now. -/
def claimedExpired (now expiryDays : Int) (img : CachedImage) : Bool :=
  decide (0 < expiryDays) &&
    decide ((img.lastUseDate.getD img.uploadDate) + expiryDays * 86400 ≤ now)

/-! ## Image ingestion: `getImgPostInfo` and `imgPostInstanceInfo`
(src/cmd/incusd/migrate_instance.go) -/

/-- One part of a `multipart/form-data` body, as read by
`mr.NextPart()`: its form name, file name and payload bytes. -/
structure MultipartPart where
  formName : String
  fileName : String
  content : List Nat
deriving DecidableEq, Repr

/-- The fields of `api.Image` produced by the parsing half of
`getImgPostInfo`. -/
structure ImgPostParsed where
  fingerprint : String
  imgType : String
  size : Nat
  filename : String
deriving DecidableEq, Repr

/-- The tail of the multipart branch once both part names are accepted:
the fingerprint is the hash of the metadata bytes followed by the
rootfs bytes; a non-empty `X-Incus-fingerprint` header must match. -/
def getImgPostInfoFinish (h : List Nat → String) (part1 part2 : MultipartPart)
    (imgType : String) (expectedFingerprint : String) :
    Except String ImgPostParsed :=
  let fp := h (part1.content ++ part2.content)
  if expectedFingerprint ≠ "" ∧ fp ≠ expectedFingerprint then
    Except.error "fingerprints do not match"
  else
    Except.ok ⟨fp, imgType, part1.content.length + part2.content.length,
      part2.fileName⟩

/-- The `multipart/form-data` branch of `getImgPostInfo` (the hash
function is a parameter standing for the streaming SHA-256 `hash256`,
which is fed the metadata bytes and then the rootfs bytes): the first
part must be named `metadata`; the second `rootfs` (container) or
`rootfs.img` (virtual-machine); anything else is an invalid multipart
image. -/
def getImgPostInfoMultipart (h : List Nat → String) :
    List MultipartPart → String → Except String ImgPostParsed
  | [], _ => Except.error "EOF"
  | [part1], _ =>
    if part1.formName ≠ "metadata" then
      Except.error "Invalid multipart image"
    else
      Except.error "EOF"
  | part1 :: part2 :: _, expectedFingerprint =>
    if part1.formName ≠ "metadata" then
      Except.error "Invalid multipart image"
    else if part2.formName = "rootfs" then
      getImgPostInfoFinish h part1 part2 "container" expectedFingerprint
    else if part2.formName = "rootfs.img" then
      getImgPostInfoFinish h part1 part2 "virtual-machine" expectedFingerprint
    else
      Except.error "Invalid multipart image"

/-- The image database as touched by ingestion: per-project records
keyed by `(project, fingerprint)` and the set of `(project,
fingerprint)` pairs registered as held by this server
(`AddImageToLocalNode`). -/
structure ImageDB where
  records : List (String × String)
  localHolders : List (String × String)
deriving DecidableEq, Repr

/-- The duplicate-fingerprint decision at the end of `getImgPostInfo`:
if the record exists in the project, a cluster-notification request
registers this server as a holder via `AddImageToLocalNode` (no new
record, no other state), a normal request fails with already-exists;
otherwise `CreateImage` inserts the record. -/
def imagesDBCommit (db : ImageDB) (project fp : String)
    (isClusterNotification : Bool) : Except String ImageDB :=
  if (project, fp) ∈ db.records then
    if isClusterNotification then
      Except.ok { db with localHolders := (project, fp) :: db.localHolders }
    else
      Except.error "Image with same fingerprint already exists"
  else
    Except.ok { db with records := (project, fp) :: db.records }

/-- The duplicate-fingerprint check of `imgPostInstanceInfo` (publish
from instance): `GetImage` not returning not-found means the publish
fails with already-exists. -/
def imgPostInstanceInfoCheck (db : ImageDB) (project fp : String) :
    Except String Unit :=
  if (project, fp) ∈ db.records then
    Except.error "The image already exists"
  else
    Except.ok ()

/-- Model of `getImgPostInfo` on a multipart body, end to end: parse (computing
the fingerprint), then the database commit step.  On any error the
database is unchanged. -/
def getImgPostInfoResult (h : List Nat → String) (db : ImageDB)
    (project : String) (isClusterNotification : Bool)
    (parts : List MultipartPart) (expectedFingerprint : String) :
    Except String ImgPostParsed × ImageDB :=
  match getImgPostInfoMultipart h parts expectedFingerprint with
  | Except.error e => (Except.error e, db)
  | Except.ok parsed =>
    match imagesDBCommit db project parsed.fingerprint isClusterNotification with
    | Except.error e => (Except.error e, db)
    | Except.ok db2 => (Except.ok parsed, db2)

/-! ## Image deletion: `imageDelete` (src/cmd/incusd/migrate_instance.go) -/

/-- The server-side state touched by the `do` closure of `imageDelete`:
image records `(id, project, fingerprint)`, blob file names under the
`images/` directory, per-pool image volumes `(pool, fingerprint)`, and a
count of peer-deletion notifications sent. -/
structure ImageServerState where
  records : List (Nat × String × String)
  files : List String
  poolVolumes : List (String × String)
  peerNotifications : Nat
deriving DecidableEq, Repr

/-- Model of `tx.ImageExists(ctx, project, fingerprint)`. -/
def imageExists (st : ImageServerState) (project fp : String) : Bool :=
  st.records.any (fun r => r.2.1 == project && r.2.2 == fp)

/-- Model of `tx.ImageIsReferencedByOtherProjects(ctx, project, fingerprint)`:
some other project holds a record with this fingerprint. -/
def imageIsReferencedByOtherProjects (st : ImageServerState)
    (project fp : String) : Bool :=
  st.records.any (fun r => r.2.1 != project && r.2.2 == fp)

/-- Model of `tx.DeleteImage(ctx, imgID)`: drop the record with this id. -/
def deleteImageRecord (st : ImageServerState) (imgID : Nat) :
    ImageServerState :=
  { st with records := st.records.filter (fun r => r.1 != imgID) }

/-- Model of `imageDeleteFromDisk(fingerprint)`: remove `images/<fp>` and
`images/<fp>.rootfs`. -/
def imageDeleteFromDisk (st : ImageServerState) (fp : String) :
    ImageServerState :=
  { st with files := st.files.filter (fun f => f != fp && f != (fp ++ ".rootfs")) }

/-- The `do` closure of `imageDelete`: 404 when the record vanished; on a
non-notification request, when the fingerprint is referenced by another
project only the current project's record is removed and the handler
returns; otherwise peers are notified (non-notification only), the
per-pool volumes are deleted, the record is removed (non-notification
only) and the blob files are removed from disk. -/
def imageDeleteDo (st : ImageServerState) (project fp : String)
    (imgID : Nat) (isClusterNotification : Bool) :
    Except String ImageServerState :=
  if imageExists st project fp then
    if !isClusterNotification &&
        imageIsReferencedByOtherProjects st project fp then
      Except.ok (deleteImageRecord st imgID)
    else
      let st1 :=
        if isClusterNotification then st
        else { st with peerNotifications := st.peerNotifications + 1 }
      let st2 := { st1 with
        poolVolumes := st1.poolVolumes.filter (fun pv => pv.2 != fp) }
      let st3 :=
        if isClusterNotification then st2 else deleteImageRecord st2 imgID
      Except.ok (imageDeleteFromDisk st3 fp)
  else
    Except.error "Image not found"

/-! ## Migration source and sink construction: `newMigrationSource`,
`newMigrationSink` (src/cmd/incusd/migrate_instance.go) -/

/-- Instance types distinguished by the checkpoint/restore check. -/
inductive InstanceType where
  | container
  | vm
deriving DecidableEq, Repr

/-- Migration failure modes observable in `newMigrationSource` and
`newMigrationSink`. -/
inductive MigrationError where
  | noLiveMigrationSource
  | noLiveMigrationTarget
  | missingSourceSecret
  | missingSinkSecret
deriving DecidableEq, Repr

/-- The constant `api.SecretNameControl`. -/
def secretNameControl : String := "control"

/-- The constant `api.SecretNameFilesystem`. -/
def secretNameFilesystem : String := "filesystem"

/-- The constant `api.SecretNameState`. -/
def secretNameState : String := "state"

/-- The `secretNames` list: `{control, filesystem}` plus `state` when
the session is live. -/
def migrationConnNames (live : Bool) : List String :=
  [secretNameControl, secretNameFilesystem] ++
    (if live then [secretNameState] else [])

/-- Go map lookup with the string zero value: `secrets[name]` is `""`
when absent. -/
def secretFor (secrets : List (String × String)) (name : String) : String :=
  (assocLookup secrets name).getD ""

/-- Model of `newMigrationSource`: a stateful migration of a running container
requires `criu` on the local system (else *no-live-migration-source*);
`live` is set exactly when the instance is stateful and running; one
connection per name in `secretNames` is created, and in push mode every
name must come with a non-empty secret.  Returns `(live, connection
names)`. -/
def pushSecretsOK (pushSecrets : Option (List (String × String)))
    (names : List String) : Bool :=
  match pushSecrets with
  | none => true
  | some secrets => names.all (fun n => secretFor secrets n != "")

def newMigrationSource (instType : InstanceType)
    (stateful running criuInstalled : Bool)
    (pushSecrets : Option (List (String × String))) :
    Except MigrationError (Bool × List String) :=
  if stateful && running &&
      (instType == InstanceType.container) && !criuInstalled then
    Except.error MigrationError.noLiveMigrationSource
  else if pushSecretsOK pushSecrets (migrationConnNames (stateful && running)) then
    Except.ok (stateful && running, migrationConnNames (stateful && running))
  else
    Except.error MigrationError.missingSourceSecret

/-- Model of `newMigrationSink`: a live sink for a container requires `criu` on
the local system (else *no-live-migration-target*); one connection per
name in `secretNames` is created, and in pull mode (not push) every name
must come with a non-empty secret.  Returns `(live, connection
names)`. -/
def pullSecretsOK (push : Bool) (secrets : List (String × String))
    (names : List String) : Bool :=
  push || names.all (fun n => secretFor secrets n != "")

def newMigrationSink (instType : InstanceType)
    (live criuInstalled push : Bool)
    (secrets : List (String × String)) :
    Except MigrationError (Bool × List String) :=
  if live && (instType == InstanceType.container) && !criuInstalled then
    Except.error MigrationError.noLiveMigrationTarget
  else if pullSecretsOK push secrets (migrationConnNames live) then
    Except.ok (live, migrationConnNames live)
  else
    Except.error MigrationError.missingSinkSecret

/-! ## Migration control-connection timeout: `migrationSourceWs.do`,
`migrationSink.do` (src/cmd/incusd/migrate_instance.go) -/

/-- The control-connection window: `context.WithTimeout(..., time.Second*30)`
in both `do` methods. -/
def migrationControlTimeoutSeconds : Nat := 30

/-- Outcome of a migration `do` step: the terminal error (if any) and
whether the instance transfer (`MigrateSend`/`MigrateReceive`) was
started. -/
structure MigrationDoResult where
  err : Option String
  transferStarted : Bool
deriving DecidableEq, Repr

/-- Model of `migrationSourceWs.do`: wait for the control websocket under the
30-second context; `controlConnectDelay` is the time (seconds) at which
the peer connects the control channel, `none` when it never does.  Only
after the control connection is established is `MigrateSend` invoked
(whose outcome is `migrateSendErr`). -/
def migrationSourceDo (controlConnectDelay : Option Nat)
    (migrateSendErr : Option String) : MigrationDoResult :=
  match controlConnectDelay with
  | none =>
    ⟨some "Failed waiting for migration control connection on source", false⟩
  | some d =>
    if migrationControlTimeoutSeconds < d then
      ⟨some "Failed waiting for migration control connection on source", false⟩
    else
      match migrateSendErr with
      | some _ => ⟨some "Failed migration on source", true⟩
      | none => ⟨none, true⟩

/-- Model of `migrationSink.do`: same wait with the target-side message, then
`MigrateReceive`. -/
def migrationSinkDo (controlConnectDelay : Option Nat)
    (migrateReceiveErr : Option String) : MigrationDoResult :=
  match controlConnectDelay with
  | none =>
    ⟨some "Failed waiting for migration control connection on target", false⟩
  | some d =>
    if migrationControlTimeoutSeconds < d then
      ⟨some "Failed waiting for migration control connection on target", false⟩
    else
      match migrateReceiveErr with
      | some _ => ⟨some "Failed migration on target", true⟩
      | none => ⟨none, true⟩

/-! ## Image PATCH: `imagePatch` (src/cmd/incusd/migrate_instance.go) -/

/-- The image record fields carried through `imagePatch` into
`tx.UpdateImage`. -/
structure ImageFields where
  filename : String
  size : Int
  architecture : String
  createdAt : Int
  expiresAt : Int
  autoUpdate : Bool
  publicFlag : Bool
  properties : List (String × String)
deriving DecidableEq, Repr

/-- The decoded PATCH body: `reqRaw.GetBool("auto_update")` and
`reqRaw.GetBool("public")` succeed only when the key is present with a
boolean value (`none` otherwise); `properties` is present exactly when
the `properties` key appears in the body. -/
structure ImagePatchRequest where
  autoUpdate : Option Bool
  publicFlag : Option Bool
  properties : Option (List (String × String))
deriving DecidableEq, Repr

/-- The properties merge of `imagePatch`: start from the request's map
and add every stored key that the request does not mention. -/
def mergeProperties (old new : List (String × String)) :
    List (String × String) :=
  new ++ old.filter (fun kv => (assocLookup new kv.1).isNone)

/-- Model of `imagePatch` after the ETag check: apply `auto_update` and `public`
only when present, merge `properties` when supplied, and call
`tx.UpdateImage` with the stored filename, size, architecture,
created-at and expires-at. -/
def imagePatch (info : ImageFields) (req : ImagePatchRequest) :
    ImageFields :=
  let info1 :=
    match req.autoUpdate with
    | some b => { info with autoUpdate := b }
    | none => info
  let info2 :=
    match req.publicFlag with
    | some b => { info1 with publicFlag := b }
    | none => info1
  match req.properties with
  | some ps => { info2 with properties := mergeProperties info2.properties ps }
  | none => info2

/-! ## Theorems -/

lemma memberCheck_eq_none_iff (o n : RaftNode) :
    memberCheck o n = none ↔
      (o.id = n.id ∧
        ¬(o.name ≠ "" ∧ n.name ≠ "" ∧ o.name ≠ n.name) ∧
        ¬(o.role = RaftRole.spare ∧ n.role = RaftRole.voter)) := by
  unfold memberCheck
  split_ifs with h1 h2 h3 <;> simp_all

lemma firstMemberError_eq_none_iff (os ns : List RaftNode) :
    firstMemberError os ns = none ↔
      ∀ p ∈ List.zip os ns, memberCheck p.1 p.2 = none := by
  induction os generalizing ns with
  | nil => cases ns <;> simp [firstMemberError]
  | cons o os ih =>
    cases ns with
    | nil => simp [firstMemberError]
    | cons n ns =>
      simp only [firstMemberError, List.zip_cons_cons, List.mem_cons]
      cases h : memberCheck o n with
      | some e => simp [h]
      | none =>
        simp only [ih]
        constructor
        · rintro hall p (rfl | hp)
          · exact h
          · exact hall p hp
        · intro hall p hp
          exact hall p (Or.inr hp)

lemma memberCheck_self (n : RaftNode) : memberCheck n n = none := by
  rw [memberCheck_eq_none_iff]
  refine ⟨rfl, ?_, ?_⟩
  · rintro ⟨-, -, hne⟩
    exact hne rfl
  · rintro ⟨h1, h2⟩
    rw [h1] at h2
    exact absurd h2 (by decide)

lemma mem_zip_self {α : Type} {p : α × α} :
    ∀ {ns : List α}, p ∈ List.zip ns ns → p.1 = p.2 := by
  intro ns
  induction ns with
  | nil => intro h; simp [List.zip] at h
  | cons a as ih =>
    intro h
    rw [List.zip_cons_cons] at h
    rcases List.mem_cons.mp h with rfl | h
    · rfl
    · exact ih h

lemma firstMemberError_self (ns : List RaftNode) : firstMemberError ns ns = none := by
  rw [firstMemberError_eq_none_iff]
  intro p hp
  have h12 : p.1 = p.2 := mem_zip_self hp
  calc memberCheck p.1 p.2 = memberCheck p.2 p.2 := by rw [h12]
    _ = none := memberCheck_self p.2

lemma opMatches_iff (fp s : String) (op : Operation) :
    opMatches fp s op = true ↔
      ∃ res opImages, op.resources = some res ∧
        assocLookup res "images" = some opImages ∧
        stringPrefixInSlice (imageURL fp) opImages = true ∧
        assocLookup op.metadata "secret" = some s := by
  unfold opMatches
  cases hre : op.resources with
  | none => simp
  | some res =>
    cases him : assocLookup res "images" with
    | none => simp [him]
    | some opImages =>
      cases hsec : assocLookup op.metadata "secret" with
      | none => simp [him, hsec]
      | some opSecret =>
        simp only [him, hsec, Bool.and_eq_true, beq_iff_eq,
          Option.some.injEq]
        constructor
        · rintro ⟨hpfx, rfl⟩
          exact ⟨res, opImages, rfl, him, hpfx, rfl⟩
        · rintro ⟨res2, opImages2, hr2, hi2, hp2, hs2⟩
          cases hr2
          rw [him] at hi2
          cases hi2
          exact ⟨hp2, hs2⟩

lemma imageValidSecret_none_iff (fp s : String) (ops : List Operation) :
    (imageValidSecret fp s ops).1 = none ↔
      ∀ o ∈ ops, opMatches fp s o = false := by
  induction ops with
  | nil => simp [imageValidSecret]
  | cons op ops ih =>
    by_cases hm : opMatches fp s op
    · simp only [imageValidSecret, if_pos hm]
      constructor
      · intro h
        by_cases hr : op.status = OpStatus.running <;> simp [hr] at h
      · intro h
        exact absurd (h op (List.mem_cons_self op ops)) (by simp [hm])
    · simp only [imageValidSecret, if_neg hm]
      rw [ih]
      constructor
      · intro hall o ho
        rcases List.mem_cons.mp ho with rfl | ho
        · simpa using hm
        · exact hall o ho
      · intro hall o ho
        exact hall o (List.mem_cons_of_mem op ho)

lemma imageValidSecret_found (fp s : String) (ops : List Operation)
    (op : Operation) (h : (imageValidSecret fp s ops).1 = some op) :
    op ∈ ops ∧ opMatches fp s op = true := by
  induction ops with
  | nil => simp [imageValidSecret] at h
  | cons o os ih =>
    by_cases hm : opMatches fp s o
    · simp only [imageValidSecret, if_pos hm] at h
      by_cases hr : o.status = OpStatus.running
      · rw [if_pos hr] at h
        have h2 : some o = some op := h
        injection h2 with h3
        subst h3
        exact ⟨List.mem_cons_self o os, hm⟩
      · rw [if_neg hr] at h
        have h2 : some o = some op := h
        injection h2 with h3
        subst h3
        exact ⟨List.mem_cons_self o os, hm⟩
    · simp only [imageValidSecret, if_neg hm] at h
      obtain ⟨hmem, hop⟩ := ih h
      exact ⟨List.mem_cons_of_mem o hmem, hop⟩

lemma imageValidSecret_not_running (fp s : String) (ops : List Operation)
    (op : Operation) (h : (imageValidSecret fp s ops).1 = some op)
    (hr : op.status ≠ OpStatus.running) :
    (imageValidSecret fp s ops).2 = ops := by
  induction ops with
  | nil => simp [imageValidSecret] at h
  | cons o os ih =>
    by_cases hm : opMatches fp s o
    · simp only [imageValidSecret, if_pos hm] at h ⊢
      by_cases hro : o.status = OpStatus.running
      · rw [if_pos hro] at h
        have h2 : some o = some op := h
        injection h2 with h3
        subst h3
        exact absurd hro hr
      · simp [hro]
    · simp only [imageValidSecret, if_neg hm] at h ⊢
      rw [ih h]

lemma imageValidSecret_consumed (fp s : String) (ops : List Operation)
    (op : Operation)
    (hc : ops.countP (opMatches fp s) ≤ 1)
    (h : (imageValidSecret fp s ops).1 = some op)
    (hr : op.status = OpStatus.running) :
    (imageValidSecret fp s ((imageValidSecret fp s ops).2)).1 = none := by
  induction ops with
  | nil => simp [imageValidSecret] at h
  | cons o os ih =>
    by_cases hm : opMatches fp s o
    · simp only [imageValidSecret, if_pos hm] at h ⊢
      have hcount : os.countP (opMatches fp s) = 0 := by
        rw [List.countP_cons, if_pos hm] at hc
        omega
      have hnone : ∀ o2 ∈ os, opMatches fp s o2 = false := by
        intro o2 ho2
        simpa using List.countP_eq_zero.mp hcount o2 ho2
      by_cases hro : o.status = OpStatus.running
      · simp only [if_pos hro]
        exact (imageValidSecret_none_iff fp s os).mpr hnone
      · rw [if_neg hro] at h
        have h2 : some o = some op := h
        injection h2 with h3
        subst h3
        exact absurd hr hro
    · simp only [imageValidSecret, if_neg hm] at h ⊢
      have hc2 : os.countP (opMatches fp s) ≤ 1 := by
        rw [List.countP_cons, if_neg (by simpa using hm)] at hc
        omega
      have hrec := ih hc2 h
      exact hrec

/-- C1: when `imageValidSecret` finds an operation for `(fp, secret)`
(assuming secrets are not duplicated, so at most one in-flight operation
matches the pair), the returned operation carries an `images` resource
URL prefixed by `images/<fp>` and a metadata `secret` equal (as a
string) to the presented secret; if it was still running it is
cancelled, so a second call with the same `(fp, secret)` finds no
operation; if it is no longer running (expired) it is still returned and
the in-flight set is untouched. -/
theorem c1_imageValidSecret_single_use
    (fp s : String) (ops : List Operation) (op : Operation)
    (hc : ops.countP (opMatches fp s) ≤ 1)
    (h : (imageValidSecret fp s ops).1 = some op) :
    op ∈ ops ∧
    (∃ res opImages, op.resources = some res ∧
      assocLookup res "images" = some opImages ∧
      stringPrefixInSlice (imageURL fp) opImages = true) ∧
    assocLookup op.metadata "secret" = some s ∧
    (op.status = OpStatus.running →
      (imageValidSecret fp s ((imageValidSecret fp s ops).2)).1 = none) ∧
    (op.status ≠ OpStatus.running →
      (imageValidSecret fp s ops).2 = ops) := by
  obtain ⟨hmem, hmatch⟩ := imageValidSecret_found fp s ops op h
  obtain ⟨res, opImages, h1, h2, h3, h4⟩ := (opMatches_iff fp s op).mp hmatch
  refine ⟨hmem, ⟨res, opImages, h1, h2, h3⟩, h4, ?_, ?_⟩
  · intro hr
    exact imageValidSecret_consumed fp s ops op hc h hr
  · intro hr
    exact imageValidSecret_not_running fp s ops op h hr

/-- Witness for C1: a single running image-token operation for
fingerprint `abc` with secret `tok`; the call returns it and a second
call finds nothing. -/
theorem c1_imageValidSecret_single_use_witness :
    ([⟨"op1", OpStatus.running, some [("images", ["/1.0/images/abc"])],
        [("secret", "tok")]⟩] :
      List Operation).countP (opMatches "abc" "tok") ≤ 1 ∧
    (imageValidSecret "abc" "tok"
      [⟨"op1", OpStatus.running, some [("images", ["/1.0/images/abc"])],
        [("secret", "tok")]⟩]).1 =
      some ⟨"op1", OpStatus.running, some [("images", ["/1.0/images/abc"])],
        [("secret", "tok")]⟩ ∧
    (imageValidSecret "abc" "tok"
      ((imageValidSecret "abc" "tok"
        [⟨"op1", OpStatus.running, some [("images", ["/1.0/images/abc"])],
          [("secret", "tok")]⟩]).2)).1 = none :=
  ⟨by decide, by decide,
    (c1_imageValidSecret_single_use "abc" "tok"
      [⟨"op1", OpStatus.running, some [("images", ["/1.0/images/abc"])],
        [("secret", "tok")]⟩]
      ⟨"op1", OpStatus.running, some [("images", ["/1.0/images/abc"])],
        [("secret", "tok")]⟩
      (by decide) (by decide)).2.2.2.1 rfl⟩

lemma imageRecordExpired_eq_claimed (now expiryDays : Int)
    (img : CachedImage) :
    imageRecordExpired now expiryDays img = claimedExpired now expiryDays img := by
  unfold imageRecordExpired claimedExpired
  by_cases h : expiryDays ≤ 0
  · rw [if_pos h]
    have : ¬ (0 < expiryDays) := by omega
    simp [this]
  · rw [if_neg h]
    have h0 : (0 < expiryDays) := by omega
    cases img.lastUseDate <;> simp [h0, Option.getD]

lemma pruneFingerprint_eq (now : Int) (expiryDaysOf : String → Int)
    (imgs : List CachedImage) :
    pruneFingerprint now expiryDaysOf imgs =
      (imgs.countP (fun img => imageRecordExpired now (expiryDaysOf img.project) img),
        imgs.filter (fun img => !(imageRecordExpired now (expiryDaysOf img.project) img))) := by
  induction imgs with
  | nil => simp [pruneFingerprint]
  | cons img rest ih =>
    by_cases h : imageRecordExpired now (expiryDaysOf img.project) img
    · simp [pruneFingerprint, ih, h, List.countP_cons]
    · simp [pruneFingerprint, ih, h, List.countP_cons]

/-- C3: in the expiry pass, a cached record is deleted iff its project's
expiry is positive and `(last-used-at OR upload-date) + days*24h` is not
after now; the blob files and the per-pool volumes for a fingerprint are
removed exactly when every one of its records was deleted; and a
project-level `images.remote_cache_expiry = 0` disables expiry for that
project regardless of a positive global default. -/
theorem c3_pruneExpiredImages_expiry
    (now globalDays : Int) (projects : List (String × Option Int))
    (allImages : List (String × List CachedImage)) :
    ((pruneExpiredImages now projects globalDays allImages).1 =
      allImages.map (fun g => (g.1, g.2.filter (fun img =>
        !(claimedExpired now (projectExpiryDays projects globalDays img.project) img))))) ∧
    ((pruneExpiredImages now projects globalDays allImages).2 =
      (allImages.filter (fun g => g.2.all (fun img =>
        claimedExpired now (projectExpiryDays projects globalDays img.project) img))).map
        (fun g => g.1)) ∧
    (∀ p, assocLookup projects p = some (some 0) →
      ∀ g ∈ allImages, ∀ img ∈ g.2, img.project = p →
        claimedExpired now (projectExpiryDays projects globalDays img.project) img = false) := by
  refine ⟨?_, ?_, ?_⟩
  · unfold pruneExpiredImages
    simp only [pruneFingerprint_eq]
    apply List.map_congr_left
    intro g _
    congr 1
    apply List.filter_congr
    intro img _
    rw [imageRecordExpired_eq_claimed]
  · unfold pruneExpiredImages
    simp only [pruneFingerprint_eq]
    congr 1
    apply List.filter_congr
    intro g _
    rw [Bool.eq_iff_iff]
    simp only [decide_eq_true_eq, List.all_eq_true]
    rw [List.countP_eq_length]
    constructor
    · intro h img himg
      rw [← imageRecordExpired_eq_claimed]
      exact h img himg
    · intro h img himg
      rw [imageRecordExpired_eq_claimed]
      exact h img himg
  · intro p hp g _ img _ hproj
    unfold claimedExpired
    have : projectExpiryDays projects globalDays img.project = 0 := by
      unfold projectExpiryDays
      rw [hproj, hp]
    rw [this]
    simp

/-- C4: ingesting a fingerprint that already has a record in the
project fails with already-exists on a normal request (and no record is
created), while a cluster-notification request instead registers this
server as a holder of the existing image, leaving the records (and all
other database state) unchanged; the instance-publish path also fails
with already-exists. -/
theorem c4_duplicate_fingerprint_ingestion (db : ImageDB)
    (project fp : String) (hex : (project, fp) ∈ db.records) :
    imagesDBCommit db project fp false =
      Except.error "Image with same fingerprint already exists" ∧
    imagesDBCommit db project fp true =
      Except.ok { db with localHolders := (project, fp) :: db.localHolders } ∧
    imgPostInstanceInfoCheck db project fp =
      Except.error "The image already exists" := by
  unfold imagesDBCommit imgPostInstanceInfoCheck
  refine ⟨?_, ?_, ?_⟩ <;> rw [if_pos hex] <;> rfl

/-- Witness for C4 on a one-record database. -/
theorem c4_duplicate_fingerprint_ingestion_witness :
    (("default", "abc") ∈ (ImageDB.mk [("default", "abc")] []).records) ∧
    imagesDBCommit (ImageDB.mk [("default", "abc")] []) "default" "abc" false =
      Except.error "Image with same fingerprint already exists" ∧
    imagesDBCommit (ImageDB.mk [("default", "abc")] []) "default" "abc" true =
      Except.ok (ImageDB.mk [("default", "abc")] [("default", "abc")]) :=
  ⟨by decide,
    (c4_duplicate_fingerprint_ingestion (ImageDB.mk [("default", "abc")] [])
      "default" "abc" (by decide)).1,
    (c4_duplicate_fingerprint_ingestion (ImageDB.mk [("default", "abc")] [])
      "default" "abc" (by decide)).2.1⟩

/-- C7: a multipart image POST whose first part is not named `metadata`,
or whose second part is named neither `rootfs` nor `rootfs.img`, is
rejected as an invalid multipart image with the database untouched;
when it succeeds, a `rootfs` second part yields type `container`, a
`rootfs.img` second part yields type `virtual-machine`, and the
fingerprint is the hash of the metadata bytes followed by the rootfs
bytes, in that order. -/
theorem c7_multipart_image_post (h : List Nat → String) (db : ImageDB)
    (project : String) (isClusterNotification : Bool)
    (p1 p2 : MultipartPart) (rest : List MultipartPart)
    (expectedFingerprint : String) :
    (p1.formName ≠ "metadata" →
      getImgPostInfoResult h db project isClusterNotification
        (p1 :: p2 :: rest) expectedFingerprint =
        (Except.error "Invalid multipart image", db)) ∧
    (p2.formName ≠ "rootfs" → p2.formName ≠ "rootfs.img" →
      getImgPostInfoResult h db project isClusterNotification
        (p1 :: p2 :: rest) expectedFingerprint =
        (Except.error "Invalid multipart image", db)) ∧
    (∀ parsed,
      (getImgPostInfoResult h db project isClusterNotification
        (p1 :: p2 :: rest) expectedFingerprint).1 = Except.ok parsed →
      parsed.fingerprint = h (p1.content ++ p2.content) ∧
      (p2.formName = "rootfs" → parsed.imgType = "container") ∧
      (p2.formName = "rootfs.img" → parsed.imgType = "virtual-machine")) := by
  refine ⟨?_, ?_, ?_⟩
  · intro hname
    simp only [getImgPostInfoResult, getImgPostInfoMultipart, if_pos hname]
  · intro hn1 hn2
    by_cases hname : p1.formName ≠ "metadata"
    · simp only [getImgPostInfoResult, getImgPostInfoMultipart, if_pos hname]
    · simp only [getImgPostInfoResult, getImgPostInfoMultipart, if_neg hname,
        if_neg hn1, if_neg hn2]
  · intro parsed hok
    have hmp : getImgPostInfoMultipart h (p1 :: p2 :: rest) expectedFingerprint =
        Except.ok parsed := by
      cases hm : getImgPostInfoMultipart h (p1 :: p2 :: rest) expectedFingerprint with
      | error e =>
        simp only [getImgPostInfoResult, hm] at hok
        exact absurd hok (by simp)
      | ok q =>
        simp only [getImgPostInfoResult, hm] at hok
        cases hc : imagesDBCommit db project q.fingerprint isClusterNotification with
        | error e =>
          simp only [hc] at hok
          exact absurd hok (by simp)
        | ok db2 =>
          simp only [hc] at hok
          simp only [Except.ok.injEq] at hok
          rw [hok]
    simp only [getImgPostInfoMultipart] at hmp
    by_cases hname : p1.formName ≠ "metadata"
    · rw [if_pos hname] at hmp
      exact absurd hmp (by simp)
    rw [if_neg hname] at hmp
    by_cases hn1 : p2.formName = "rootfs"
    · rw [if_pos hn1] at hmp
      unfold getImgPostInfoFinish at hmp
      by_cases hfp : expectedFingerprint ≠ "" ∧
          h (p1.content ++ p2.content) ≠ expectedFingerprint
      · rw [if_pos hfp] at hmp
        exact absurd hmp (by simp)
      · rw [if_neg hfp] at hmp
        simp only [Except.ok.injEq] at hmp
        refine ⟨?_, ?_, ?_⟩
        · exact (congrArg ImgPostParsed.fingerprint hmp).symm
        · intro hr
          exact (congrArg ImgPostParsed.imgType hmp).symm
        · intro hr
          rw [hn1] at hr
          exact absurd hr (by decide)
    rw [if_neg hn1] at hmp
    by_cases hn2 : p2.formName = "rootfs.img"
    · rw [if_pos hn2] at hmp
      unfold getImgPostInfoFinish at hmp
      by_cases hfp : expectedFingerprint ≠ "" ∧
          h (p1.content ++ p2.content) ≠ expectedFingerprint
      · rw [if_pos hfp] at hmp
        exact absurd hmp (by simp)
      · rw [if_neg hfp] at hmp
        simp only [Except.ok.injEq] at hmp
        refine ⟨?_, ?_, ?_⟩
        · exact (congrArg ImgPostParsed.fingerprint hmp).symm
        · intro hr
          rw [hn2] at hr
          exact absurd hr (by decide)
        · intro hr
          exact (congrArg ImgPostParsed.imgType hmp).symm
    · rw [if_neg hn2] at hmp
      exact absurd hmp (by simp)

/-- Witness for C7: a well-formed two-part upload with a `rootfs.img`
second part under a constant hash function. -/
theorem c7_multipart_image_post_witness :
    (getImgPostInfoResult (fun _bs => "fp0") (ImageDB.mk [] []) "default"
      false [⟨"metadata", "meta.tar.xz", [1, 2]⟩, ⟨"rootfs.img", "disk.qcow2", [3]⟩]
      "").1 = Except.ok ⟨"fp0", "virtual-machine", 3, "disk.qcow2"⟩ ∧
    ((⟨"metadata", "meta.tar.xz", [1, 2]⟩ : MultipartPart).formName ≠ "metadata" →
      False) ∧
    ("fp0" = (fun (_bs : List Nat) => "fp0") ([1, 2] ++ [3]) ∧
      ("rootfs.img" = "rootfs.img" →
        ("virtual-machine" : String) = "virtual-machine")) :=
  ⟨rfl, fun hcon => absurd rfl hcon,
    by
      have hall := (c7_multipart_image_post (fun _bs => "fp0") (ImageDB.mk [] [])
        "default" false ⟨"metadata", "meta.tar.xz", [1, 2]⟩
        ⟨"rootfs.img", "disk.qcow2", [3]⟩ [] "").2.2
        ⟨"fp0", "virtual-machine", 3, "disk.qcow2"⟩ rfl
      exact ⟨hall.1, fun h2 => hall.2.2 rfl⟩⟩

/-- C2 (counterexample): the claim requires an error whenever a member's
non-empty name is changed, but `validateNewConfig` accepts a
configuration that blanks the name of a member whose old name was
non-empty: it only rejects when both old and new names are non-empty. -/
theorem c2_name_blank_counterexample :
    validateNewConfig
      [⟨1, "alpha", "10.0.0.1:8443", RaftRole.voter⟩]
      [⟨1, "", "10.0.0.1:8443", RaftRole.voter⟩] = none ∧
    c2ClaimedError
      [⟨1, "alpha", "10.0.0.1:8443", RaftRole.voter⟩]
      [⟨1, "", "10.0.0.1:8443", RaftRole.voter⟩] = true := by
  constructor <;> rfl

/-- C2 (amended): `validateNewConfig(old, new)` returns an error iff the
member count changed, or some position changed its id, or some member
whose name is non-empty in BOTH lists changed name, or an old `spare`
became a `voter`, or the new list has more than 2 members and fewer than
2 voters, or it has no voter at all. -/
theorem c2_validateNewConfig_error_characterisation
    (oldNodes newNodes : List RaftNode) :
    (validateNewConfig oldNodes newNodes).isSome ↔
      (oldNodes.length ≠ newNodes.length ∨
        (∃ p ∈ List.zip oldNodes newNodes,
          p.1.id ≠ p.2.id ∨
          (p.1.name ≠ "" ∧ p.2.name ≠ "" ∧ p.1.name ≠ p.2.name) ∨
          (p.1.role = RaftRole.spare ∧ p.2.role = RaftRole.voter)) ∨
        (newNodes.length > 2 ∧ countVoters newNodes < 2) ∨
        countVoters newNodes < 1) := by
  by_cases h1 : oldNodes.length > newNodes.length
  · unfold validateNewConfig
    rw [if_pos h1]
    simp only [Option.isSome_some, true_iff]
    left
    omega
  by_cases h2 : oldNodes.length < newNodes.length
  · unfold validateNewConfig
    rw [if_neg h1, if_pos h2]
    simp only [Option.isSome_some, true_iff]
    left
    omega
  have hlen : oldNodes.length = newNodes.length := by omega
  cases hfme : firstMemberError oldNodes newNodes with
  | some e =>
    unfold validateNewConfig
    rw [if_neg h1, if_neg h2, hfme]
    simp only [Option.isSome_some, true_iff]
    right; left
    have hnall : ¬ ∀ p ∈ List.zip oldNodes newNodes, memberCheck p.1 p.2 = none := by
      rw [← firstMemberError_eq_none_iff]
      simp [hfme]
    push_neg at hnall
    obtain ⟨p, hp, hpc⟩ := hnall
    refine ⟨p, hp, ?_⟩
    by_contra hcon
    push_neg at hcon
    obtain ⟨hid, hname, hrole⟩ := hcon
    refine hpc ((memberCheck_eq_none_iff p.1 p.2).mpr ⟨hid, ?_, ?_⟩)
    · rintro ⟨a, b, c⟩
      exact c (hname a b)
    · rintro ⟨a, b⟩
      exact hrole a b
  | none =>
    have hall : ∀ p ∈ List.zip oldNodes newNodes, memberCheck p.1 p.2 = none :=
      (firstMemberError_eq_none_iff oldNodes newNodes).mp hfme
    unfold validateNewConfig
    rw [if_neg h1, if_neg h2, hfme]
    by_cases h3 : countVoters newNodes < 2 ∧ newNodes.length > 2
    · rw [if_pos h3]
      simp only [Option.isSome_some, true_iff]
      right; right; left
      exact ⟨h3.2, h3.1⟩
    by_cases h4 : countVoters newNodes < 1
    · rw [if_neg h3, if_pos h4]
      simp only [Option.isSome_some, true_iff]
      right; right; right
      exact h4
    · rw [if_neg h3, if_neg h4]
      simp only [Option.isSome_none, Bool.false_eq_true, false_iff]
      rintro (hA | ⟨p, hp, hbad⟩ | hC | hD)
      · exact hA hlen
      · obtain ⟨hid, hname, hrole⟩ := (memberCheck_eq_none_iff p.1 p.2).mp (hall p hp)
        rcases hbad with hb | hb | hb
        · exact hb hid
        · exact hname hb
        · exact hrole hb
      · exact h3 ⟨hC.2, hC.1⟩
      · exact h4 hD

/-- C9: `validateNewConfig` is total (it always yields either `none` or
an error) and idempotent: a pair that validates also validates when the
new configuration is compared against itself. -/
theorem c9_validateNewConfig_total_idempotent
    (oldNodes newNodes : List RaftNode)
    (h : validateNewConfig oldNodes newNodes = none) :
    validateNewConfig newNodes newNodes = none := by
  by_cases h1 : oldNodes.length > newNodes.length
  · unfold validateNewConfig at h
    rw [if_pos h1] at h
    exact absurd h (by simp)
  by_cases h2 : oldNodes.length < newNodes.length
  · unfold validateNewConfig at h
    rw [if_neg h1, if_pos h2] at h
    exact absurd h (by simp)
  cases hfme : firstMemberError oldNodes newNodes with
  | some e =>
    unfold validateNewConfig at h
    rw [if_neg h1, if_neg h2, hfme] at h
    exact absurd h (by simp)
  | none =>
    unfold validateNewConfig at h
    rw [if_neg h1, if_neg h2, hfme] at h
    by_cases h3 : countVoters newNodes < 2 ∧ newNodes.length > 2
    · rw [if_pos h3] at h
      exact absurd h (by simp)
    by_cases h4 : countVoters newNodes < 1
    · rw [if_neg h3, if_pos h4] at h
      exact absurd h (by simp)
    unfold validateNewConfig
    rw [if_neg (lt_irrefl newNodes.length), if_neg (lt_irrefl newNodes.length),
      firstMemberError_self, if_neg h3, if_neg h4]

/-- Witness for C9 at a concrete configuration. -/
theorem c9_validateNewConfig_total_idempotent_witness :
    validateNewConfig
      [⟨1, "alpha", "10.0.0.1:8443", RaftRole.voter⟩,
       ⟨2, "beta", "10.0.0.2:8443", RaftRole.standBy⟩]
      [⟨1, "alpha", "10.0.0.1:8443", RaftRole.voter⟩,
       ⟨2, "beta", "10.0.0.2:8443", RaftRole.spare⟩] = none ∧
    validateNewConfig
      [⟨1, "alpha", "10.0.0.1:8443", RaftRole.voter⟩,
       ⟨2, "beta", "10.0.0.2:8443", RaftRole.spare⟩]
      [⟨1, "alpha", "10.0.0.1:8443", RaftRole.voter⟩,
       ⟨2, "beta", "10.0.0.2:8443", RaftRole.spare⟩] = none :=
  ⟨by decide,
    c9_validateNewConfig_total_idempotent
      [⟨1, "alpha", "10.0.0.1:8443", RaftRole.voter⟩,
       ⟨2, "beta", "10.0.0.2:8443", RaftRole.standBy⟩]
      [⟨1, "alpha", "10.0.0.1:8443", RaftRole.voter⟩,
       ⟨2, "beta", "10.0.0.2:8443", RaftRole.spare⟩]
      (by decide)⟩

/-- C8: deleting an image whose fingerprint is also referenced by
another project, on a request that is not a cluster notification,
removes only the requesting project's database record: the blob files,
the per-pool volumes and the peer-notification count are unchanged. -/
theorem c8_delete_referenced_keeps_blob (st : ImageServerState)
    (project fp : String) (imgID : Nat)
    (hex : imageExists st project fp = true)
    (href : imageIsReferencedByOtherProjects st project fp = true) :
    imageDeleteDo st project fp imgID false =
      Except.ok { st with
        records := st.records.filter (fun r => r.1 != imgID) } := by
  unfold imageDeleteDo
  rw [if_pos hex]
  have hcond : (!false && imageIsReferencedByOtherProjects st project fp) = true := by
    rw [href]
    rfl
  rw [if_pos hcond]
  rfl

/-- Witness for C8: fingerprint `abc` held by projects `default` (id 1)
and `other` (id 2); deleting it from `default` keeps the blob file, the
pool volume and sends no notification. -/
theorem c8_delete_referenced_keeps_blob_witness :
    imageExists
      (ImageServerState.mk [(1, "default", "abc"), (2, "other", "abc")]
        ["abc"] [("pool1", "abc")] 0) "default" "abc" = true ∧
    imageDeleteDo
      (ImageServerState.mk [(1, "default", "abc"), (2, "other", "abc")]
        ["abc"] [("pool1", "abc")] 0) "default" "abc" 1 false =
      Except.ok
        (ImageServerState.mk [(2, "other", "abc")]
          ["abc"] [("pool1", "abc")] 0) := by
  refine ⟨by decide, ?_⟩
  have hmain := c8_delete_referenced_keeps_blob
    (ImageServerState.mk [(1, "default", "abc"), (2, "other", "abc")]
      ["abc"] [("pool1", "abc")] 0) "default" "abc" 1
    (by decide) (by decide)
  rw [hmain]
  rfl

/-- C5: a live (stateful and running) migration of a container fails
with *no-live-migration-source* on the source and
*no-live-migration-target* on the sink when `criu` is not locatable;
and every successfully constructed session has channel set
`{control, filesystem}` when not live plus exactly the `state` channel
when live, with the source live exactly when stateful and running. -/
theorem c5_live_migration_channels (instType : InstanceType)
    (stateful running criuInstalled sinkLive push : Bool)
    (pushSecrets : Option (List (String × String)))
    (sinkSecrets : List (String × String)) :
    (stateful = true → running = true → instType = InstanceType.container →
      criuInstalled = false →
      newMigrationSource instType stateful running criuInstalled pushSecrets =
        Except.error MigrationError.noLiveMigrationSource) ∧
    (sinkLive = true → instType = InstanceType.container →
      criuInstalled = false →
      newMigrationSink instType sinkLive criuInstalled push sinkSecrets =
        Except.error MigrationError.noLiveMigrationTarget) ∧
    (∀ live names,
      newMigrationSource instType stateful running criuInstalled pushSecrets =
        Except.ok (live, names) →
      live = (stateful && running) ∧
      names = [secretNameControl, secretNameFilesystem] ++
        (if live then [secretNameState] else [])) ∧
    (∀ live names,
      newMigrationSink instType sinkLive criuInstalled push sinkSecrets =
        Except.ok (live, names) →
      live = sinkLive ∧
      names = [secretNameControl, secretNameFilesystem] ++
        (if live then [secretNameState] else [])) := by
  refine ⟨?_, ?_, ?_, ?_⟩
  · intro h1 h2 h3 h4
    subst h1; subst h2; subst h3; subst h4
    rfl
  · intro h1 h2 h3
    subst h1; subst h2; subst h3
    rfl
  · intro live names hok
    unfold newMigrationSource at hok
    split_ifs at hok with hcr hsec
    · simp only [Except.ok.injEq, Prod.mk.injEq] at hok
      refine ⟨hok.1.symm, ?_⟩
      rw [← hok.2, hok.1]
      rfl
  · intro live names hok
    unfold newMigrationSink at hok
    split_ifs at hok with hcr hsec
    · simp only [Except.ok.injEq, Prod.mk.injEq] at hok
      refine ⟨hok.1.symm, ?_⟩
      rw [← hok.2, hok.1]
      rfl

/-- Witness for C5: a live container migration without criu fails on
both ends; a non-live pull source session carries exactly the control
and filesystem channels. -/
theorem c5_live_migration_channels_witness :
    newMigrationSource InstanceType.container true true false none =
      Except.error MigrationError.noLiveMigrationSource ∧
    newMigrationSink InstanceType.container true false true [] =
      Except.error MigrationError.noLiveMigrationTarget ∧
    ((false : Bool) = (false && true) ∧
      ["control", "filesystem"] =
        [secretNameControl, secretNameFilesystem] ++
          (if (false : Bool) then [secretNameState] else [])) :=
  ⟨(c5_live_migration_channels InstanceType.container true true false true
      true none []).1 rfl rfl rfl rfl,
    (c5_live_migration_channels InstanceType.container true true false true
      true none []).2.1 rfl rfl rfl,
    (c5_live_migration_channels InstanceType.container false true false
      false false none []).2.2.1 false ["control", "filesystem"] rfl⟩

/-- C6: both `do` steps use a 30-second window for the control
connection; when the control channel does not connect within it, the
session aborts with the source/target waiting error and the instance
transfer is never started. -/
theorem c6_control_connection_timeout
    (srcDelay sinkDelay : Option Nat)
    (srcErr sinkErr : Option String)
    (hsrc : ∀ d, srcDelay = some d → migrationControlTimeoutSeconds < d)
    (hsink : ∀ d, sinkDelay = some d → migrationControlTimeoutSeconds < d) :
    migrationControlTimeoutSeconds = 30 ∧
    migrationSourceDo srcDelay srcErr =
      ⟨some "Failed waiting for migration control connection on source", false⟩ ∧
    migrationSinkDo sinkDelay sinkErr =
      ⟨some "Failed waiting for migration control connection on target", false⟩ := by
  refine ⟨rfl, ?_, ?_⟩
  · cases srcDelay with
    | none => rfl
    | some d =>
      simp only [migrationSourceDo]
      rw [if_pos (hsrc d rfl)]
  · cases sinkDelay with
    | none => rfl
    | some d =>
      simp only [migrationSinkDo]
      rw [if_pos (hsink d rfl)]

/-- Witness for C6: a peer that connects after 31 seconds on the source
and never on the target. -/
theorem c6_control_connection_timeout_witness :
    migrationSourceDo (some 31) none =
      ⟨some "Failed waiting for migration control connection on source", false⟩ ∧
    migrationSinkDo none (some "boom") =
      ⟨some "Failed waiting for migration control connection on target", false⟩ :=
  ⟨(c6_control_connection_timeout (some 31) none none (some "boom")
      (by intro d hd; cases hd; decide)
      (by intro d hd; cases hd)).2.1,
    (c6_control_connection_timeout (some 31) none none (some "boom")
      (by intro d hd; cases hd; decide)
      (by intro d hd; cases hd)).2.2⟩

lemma assocLookup_append {β : Type} (l1 l2 : List (String × β)) (k : String) :
    assocLookup (l1 ++ l2) k =
      match assocLookup l1 k with
      | some v => some v
      | none => assocLookup l2 k := by
  induction l1 with
  | nil => simp [assocLookup]
  | cons kv l1 ih =>
    cases hk : (kv.1 == k) with
    | true => simp [assocLookup, hk]
    | false => simp [assocLookup, hk, ih]

lemma assocLookup_filter_other {β : Type} (l : List (String × β))
    (p : String × β → Bool) (k : String)
    (hp : ∀ kv ∈ l, kv.1 = k → p kv = true) :
    assocLookup (l.filter p) k = assocLookup l k := by
  induction l with
  | nil => simp
  | cons kv l ih =>
    have ih2 : assocLookup (l.filter p) k = assocLookup l k := by
      apply ih
      intro kv2 h2 hk2
      exact hp kv2 (List.mem_cons_of_mem kv h2) hk2
    cases hk : (kv.1 == k) with
    | true =>
      have hpkv : p kv = true :=
        hp kv (List.mem_cons_self kv l) (by simpa using hk)
      simp [assocLookup, List.filter_cons, hpkv, hk]
    | false =>
      cases hpkv : p kv with
      | true => simp [assocLookup, List.filter_cons, hpkv, hk, ih2]
      | false => simp [assocLookup, List.filter_cons, hpkv, hk, ih2]

lemma mergeProperties_lookup (old new : List (String × String)) (k : String) :
    assocLookup (mergeProperties old new) k =
      match assocLookup new k with
      | some v => some v
      | none => assocLookup old k := by
  unfold mergeProperties
  rw [assocLookup_append]
  cases hn : assocLookup new k with
  | some v => rfl
  | none =>
    simp only
    apply assocLookup_filter_other
    intro kv _ hk
    rw [hk, hn]
    rfl

/-- C10: a PATCH that passes the ETag check changes `auto_update` and
`public` only when the corresponding key is present in the body; a
supplied properties map is merged (request keys win, stored keys absent
from the request keep their old values); and the filename, size,
architecture, created-at and expires-at fields are always written back
unchanged. -/
theorem c10_imagePatch_frame (info : ImageFields) (req : ImagePatchRequest) :
    (imagePatch info req).filename = info.filename ∧
    (imagePatch info req).size = info.size ∧
    (imagePatch info req).architecture = info.architecture ∧
    (imagePatch info req).createdAt = info.createdAt ∧
    (imagePatch info req).expiresAt = info.expiresAt ∧
    (imagePatch info req).autoUpdate = (req.autoUpdate.getD info.autoUpdate) ∧
    (imagePatch info req).publicFlag = (req.publicFlag.getD info.publicFlag) ∧
    (req.properties = none → (imagePatch info req).properties = info.properties) ∧
    (∀ ps, req.properties = some ps →
      (∀ k v, assocLookup ps k = some v →
        assocLookup (imagePatch info req).properties k = some v) ∧
      (∀ k, assocLookup ps k = none →
        assocLookup (imagePatch info req).properties k =
          assocLookup info.properties k)) := by
  obtain ⟨fn, sz, ar, ca, ea, au, pb, pr⟩ := info
  obtain ⟨rau, rpb, rpr⟩ := req
  cases rau <;> cases rpb <;> cases rpr <;>
    refine ⟨rfl, rfl, rfl, rfl, rfl, rfl, rfl, ?_, ?_⟩ <;>
    first
      | (intro ps hps
         cases hps
         simp only [imagePatch]
         exact ⟨fun k v hk => by rw [mergeProperties_lookup, hk],
           fun k hk => by rw [mergeProperties_lookup, hk]⟩)
      | (intro ps hps; exact Option.noConfusion hps)
      | (intro hx; exact Option.noConfusion hx)
      | (intro hx; rfl)

/-- Witness for C10 at a concrete record and body: `auto_update`
toggled, `public` absent, properties merged. -/
theorem c10_imagePatch_frame_witness :
    (imagePatch
      ⟨"img.tar.xz", 17, "x86_64", 100, 200, false, false,
        [("os", "Ubuntu"), ("release", "jammy")]⟩
      ⟨some true, none, some [("os", "Debian")]⟩).publicFlag = false ∧
    (imagePatch
      ⟨"img.tar.xz", 17, "x86_64", 100, 200, false, false,
        [("os", "Ubuntu"), ("release", "jammy")]⟩
      ⟨some true, none, some [("os", "Debian")]⟩).filename = "img.tar.xz" ∧
    assocLookup (imagePatch
      ⟨"img.tar.xz", 17, "x86_64", 100, 200, false, false,
        [("os", "Ubuntu"), ("release", "jammy")]⟩
      ⟨some true, none, some [("os", "Debian")]⟩).properties "release" =
      some "jammy" := by
  refine ⟨?_, ?_, ?_⟩
  · exact (c10_imagePatch_frame
      ⟨"img.tar.xz", 17, "x86_64", 100, 200, false, false,
        [("os", "Ubuntu"), ("release", "jammy")]⟩
      ⟨some true, none, some [("os", "Debian")]⟩).2.2.2.2.2.2.1.trans rfl
  · exact (c10_imagePatch_frame
      ⟨"img.tar.xz", 17, "x86_64", 100, 200, false, false,
        [("os", "Ubuntu"), ("release", "jammy")]⟩
      ⟨some true, none, some [("os", "Debian")]⟩).1
  · exact ((c10_imagePatch_frame
      ⟨"img.tar.xz", 17, "x86_64", 100, 200, false, false,
        [("os", "Ubuntu"), ("release", "jammy")]⟩
      ⟨some true, none, some [("os", "Debian")]⟩).2.2.2.2.2.2.2.2
      [("os", "Debian")] rfl).2 "release" rfl

/-- Witness for the amended C2 characterisation: a two-voter edit that
drops one member is flagged as an error. -/
theorem c2_validateNewConfig_error_characterisation_witness :
    (validateNewConfig
      [⟨1, "alpha", "10.0.0.1:8443", RaftRole.voter⟩,
       ⟨2, "beta", "10.0.0.2:8443", RaftRole.voter⟩]
      [⟨1, "alpha", "10.0.0.1:8443", RaftRole.voter⟩]).isSome :=
  (c2_validateNewConfig_error_characterisation
    [⟨1, "alpha", "10.0.0.1:8443", RaftRole.voter⟩,
     ⟨2, "beta", "10.0.0.2:8443", RaftRole.voter⟩]
    [⟨1, "alpha", "10.0.0.1:8443", RaftRole.voter⟩]).mpr
    (Or.inl (by decide))

/-- Witness for C3: a project-level expiry of 0 keeps a long-unused
cached record alive despite a positive global default, and no blob is
removed. -/
theorem c3_pruneExpiredImages_expiry_witness :
    claimedExpired 1000000
      (projectExpiryDays [("default", some 0)] 5
        (CachedImage.mk 1 "default" 0 none).project)
      (CachedImage.mk 1 "default" 0 none) = false ∧
    (pruneExpiredImages 1000000 [("default", some 0)] 5
      [("abc", [CachedImage.mk 1 "default" 0 none])]).2 = [] :=
  ⟨(c3_pruneExpiredImages_expiry 1000000 5 [("default", some 0)]
      [("abc", [CachedImage.mk 1 "default" 0 none])]).2.2 "default" rfl
      ("abc", [CachedImage.mk 1 "default" 0 none])
      (List.mem_singleton.mpr rfl)
      (CachedImage.mk 1 "default" 0 none)
      (List.mem_singleton.mpr rfl) rfl,
    by decide⟩

end Incus

